import Mathlib

/-
Shallow embedding of the wordpress-mcp tool-dispatch and REST-adapter core.

Sources embedded:
  - the CallToolRequestSchema dispatch handler (index.ts, full variant with
    media and search tools);
  - the WordPressClient adapter methods (wordpress.ts, full variant with
    page and media management).

Modelling conventions:
  - remote JSON values are the inductive `Json`; JS `undefined` is `Option`
    absence (`none`), distinct from `Json.null`;
  - an outbound HTTP call is recorded as a `WPRequest`; the remote service
    is an environment `Env : WPRequest -> Except String HttpResponse`
    (axios rejection / non-2xx is `Except.error` with the diagnostic);
  - every adapter method returns `Except String Json × List WPRequest`:
    the result (JS throw is `Except.error`) paired with the list of
    outbound requests it issued, in order;
  - JS truthiness (`x || d`, `if (x)`) is modelled by the `jsOr*` /
    `truthy*` helpers: absent, empty string and zero are falsy;
  - binary upload bodies are carried as the base64 argument string
    (byte-level decoding is irrelevant to every projected observable).
-/

/-- JSON values as delivered by the remote API and built for payloads. -/
inductive Json where
  | null : Json
  | bool : Bool → Json
  | num : Int → Json
  | str : String → Json
  | arr : List Json → Json
  | obj : List (String × Json) → Json
deriving Repr

/-- JS property access on a value: a key of a non-object (or a missing key)
reads as `undefined`, modelled as `none`. -/
def Json.get? : Json → String → Option Json
  | .obj fs, k => fs.lookup k
  | _, _ => none

/-- Two-step JS property access `v.k1.k2`: reading a property of
`undefined` or `null` throws a TypeError (diagnostic text abbreviated). -/
def jsGet2 (v : Json) (k1 k2 : String) : Except String (Option Json) :=
  match v.get? k1 with
  | none => .error ("Cannot read properties of undefined reading " ++ k2)
  | some .null => .error ("Cannot read properties of null reading " ++ k2)
  | some w => .ok (w.get? k2)

/-- Optional-chaining JS access `v.k1?.k2`: `undefined`/`null` short-circuit
to `undefined` instead of throwing. -/
def jsGet2Opt (v : Json) (k1 k2 : String) : Option Json :=
  match v.get? k1 with
  | none => none
  | some .null => none
  | some w => w.get? k2

/-- Build a JSON object from optional fields; fields that are `none`
(JS `undefined`) are dropped, as JSON.stringify drops them. -/
def mkObj (fs : List (String × Option Json)) : Json :=
  .obj (fs.filterMap (fun p => p.2.map (fun v => (p.1, v))))

mutual

/-- Serialization of a JSON value (stands in for JSON.stringify; no claim
inspects the serialized text of a success payload). -/
def Json.render : Json → String
  | .null => "null"
  | .bool b => if b then "true" else "false"
  | .num n => toString n
  | .str s => "\"" ++ s ++ "\""
  | .arr xs => "[" ++ renderArr xs ++ "]"
  | .obj fs => "\x7b" ++ renderObj fs ++ "\x7d"

def renderArr : List Json → String
  | [] => ""
  | [x] => Json.render x
  | x :: y :: xs => Json.render x ++ "," ++ renderArr (y :: xs)

def renderObj : List (String × Json) → String
  | [] => ""
  | [(k, v)] => "\"" ++ k ++ "\":" ++ Json.render v
  | (k, v) :: f :: fs =>
      "\"" ++ k ++ "\":" ++ Json.render v ++ "," ++ renderObj (f :: fs)

end

/-- A query-string value (axios serializes numbers, strings and booleans). -/
inductive QVal where
  | int : Int → QVal
  | str : String → QVal
  | bool : Bool → QVal
deriving Repr, DecidableEq

/-- One outbound HTTP request as built by the adapter. -/
structure WPRequest where
  method : String
  path : String
  query : List (String × QVal) := []
  body : Json := Json.null
  contentType : Option String := none
  contentDisposition : Option String := none
  rawBody : Option String := none
deriving Repr

/-- A successful remote response: parsed JSON body plus response headers. -/
structure HttpResponse where
  data : Json
  headers : List (String × String) := []
deriving Repr

/-- The remote service: each issued request either yields a response or
fails (non-2xx, network fault, timeout) with a diagnostic message. -/
abbrev Env := WPRequest → Except String HttpResponse

/-- JS `x || d` for an optional number: absent and 0 are falsy. -/
def jsOrInt : Option Int → Int → Int
  | none, d => d
  | some n, d => if n = 0 then d else n

/-- JS `x || d` for an optional string: absent and "" are falsy. -/
def jsOrStr : Option String → String → String
  | none, d => d
  | some s, d => if s = "" then d else s

/-- JS truthiness filter for an optional string (`""` reads as absent). -/
def truthyStr : Option String → Option String
  | none => none
  | some s => if s = "" then none else some s

/-- JS truthiness filter for an optional number (`0` reads as absent). -/
def truthyInt : Option Int → Option Int
  | none => none
  | some n => if n = 0 then none else some n

/-- Template interpolation of an optional numeric argument into a path or
message (JS renders a missing argument as "undefined"). -/
def renderOptInt : Option Int → String
  | none => "undefined"
  | some n => toString n

/-- Read a pagination header; a missing header reads as `undefined`. -/
def headerOpt (r : HttpResponse) (k : String) : Option Json :=
  (r.headers.lookup k).map Json.str

/-- Conditionally include one query entry (the JS truthy spread pattern). -/
def optEntry (k : String) (v : Option QVal) : List (String × QVal) :=
  match v with
  | some q => [(k, q)]
  | none => []

/-- Arguments of getPosts (interface PostParams). -/
structure PostParams where
  search : Option String := none
  per_page : Option Int := none
  page : Option Int := none
  status : Option String := none
  orderby : Option String := none
  order : Option String := none
deriving Repr

/-- Arguments of createPost and updatePost (interface CreatePostParams; at
the dispatch boundary every field, title included, may be absent). -/
structure CreatePostParams where
  title : Option String := none
  content : Option String := none
  excerpt : Option String := none
  status : Option String := none
  featured_media : Option Int := none
  categories : Option (List Int) := none
  tags : Option (List Int) := none
deriving Repr

/-- Arguments of searchSite (interface SearchParams). -/
structure SearchParams where
  search : Option String := none
  per_page : Option Int := none
  page : Option Int := none
  type : Option String := none
  subtype : Option String := none
deriving Repr

/-- Arguments of uploadMedia (interface UploadMediaParams). -/
structure UploadMediaParams where
  filename : Option String := none
  data : Option String := none
  title : Option String := none
  alt_text : Option String := none
  caption : Option String := none
  description : Option String := none
deriving Repr

/-- Arguments of listMedia (interface MediaListParams). -/
structure MediaListParams where
  per_page : Option Int := none
  page : Option Int := none
  search : Option String := none
  media_type : Option String := none
  mime_type : Option String := none
  orderby : Option String := none
  order : Option String := none
deriving Repr

/-- Arguments of createPage (interface CreatePageParams). -/
structure CreatePageParams where
  title : Option String := none
  content : Option String := none
  excerpt : Option String := none
  status : Option String := none
  featured_media : Option Int := none
  parent : Option Int := none
deriving Repr

/-- Arguments of getCategories and getTags. -/
structure CatTagParams where
  per_page : Option Int := none
  search : Option String := none
deriving Repr

namespace WordPressClient

/-- Query parameters built by getPosts. -/
def getPostsQuery (p : PostParams) : List (String × QVal) :=
  [("per_page", .int (min (jsOrInt p.per_page 10) 100)),
   ("page", .int (jsOrInt p.page 1)),
   ("status", .str (jsOrStr p.status "publish")),
   ("orderby", .str (jsOrStr p.orderby "date")),
   ("order", .str (jsOrStr p.order "desc"))]
  ++ optEntry "search" ((truthyStr p.search).map QVal.str)

/-- WordPressClient.getPosts. -/
def getPosts (p : PostParams) (env : Env) : Except String Json × List WPRequest :=
  let req : WPRequest := { method := "GET", path := "/posts", query := getPostsQuery p }
  match env req with
  | .ok r =>
      (.ok (mkObj [("posts", some r.data),
                   ("total", headerOpt r "x-wp-total"),
                   ("totalPages", headerOpt r "x-wp-totalpages"),
                   ("currentPage", some (.num (jsOrInt p.page 1)))]), [req])
  | .error e => (.error ("Failed to fetch posts: " ++ e), [req])

/-- WordPressClient.getPost. -/
def getPost (id : Option Int) (env : Env) : Except String Json × List WPRequest :=
  let req : WPRequest := { method := "GET", path := "/posts/" ++ renderOptInt id }
  match env req with
  | .ok r => (.ok r.data, [req])
  | .error e => (.error ("Failed to fetch post " ++ renderOptInt id ++ ": " ++ e), [req])

/-- The create payload built by createPost: content/excerpt default to "",
status defaults to "draft"; featured_media only when truthy; categories and
tags whenever present (a JS array, even empty, is truthy). -/
def createPostPayload (p : CreatePostParams) : Json :=
  mkObj [("title", p.title.map Json.str),
         ("content", some (.str (jsOrStr p.content ""))),
         ("excerpt", some (.str (jsOrStr p.excerpt ""))),
         ("status", some (.str (jsOrStr p.status "draft"))),
         ("featured_media", (truthyInt p.featured_media).map Json.num),
         ("categories", p.categories.map (fun l => Json.arr (l.map Json.num))),
         ("tags", p.tags.map (fun l => Json.arr (l.map Json.num)))]

/-- The request issued by createPost. -/
def createPostReq (p : CreatePostParams) : WPRequest :=
  { method := "POST", path := "/posts", body := createPostPayload p }

/-- Projection returned by createPost: id, rendered title, link, status,
rendered content (rendered accesses throw on an undefined/null parent). -/
def projectCreatePost (d : Json) : Except String Json := do
  let tr ← jsGet2 d "title" "rendered"
  let cr ← jsGet2 d "content" "rendered"
  pure (mkObj [("id", d.get? "id"), ("title", tr), ("link", d.get? "link"),
               ("status", d.get? "status"), ("content", cr)])

/-- WordPressClient.createPost: validates a truthy title before any request. -/
def createPost (p : CreatePostParams) (env : Env) : Except String Json × List WPRequest :=
  match truthyStr p.title with
  | none => (.error "Failed to create post: Post title is required", [])
  | some _ =>
    let req := createPostReq p
    match env req with
    | .error e => (.error ("Failed to create post: " ++ e), [req])
    | .ok r =>
      match projectCreatePost r.data with
      | .ok v => (.ok v, [req])
      | .error e => (.error ("Failed to create post: " ++ e), [req])

/-- The partial payload built by updatePost: each field is included only
when truthy (arrays whenever present). -/
def updatePostPayload (p : CreatePostParams) : Json :=
  mkObj [("title", (truthyStr p.title).map Json.str),
         ("content", (truthyStr p.content).map Json.str),
         ("excerpt", (truthyStr p.excerpt).map Json.str),
         ("status", (truthyStr p.status).map Json.str),
         ("featured_media", (truthyInt p.featured_media).map Json.num),
         ("categories", p.categories.map (fun l => Json.arr (l.map Json.num))),
         ("tags", p.tags.map (fun l => Json.arr (l.map Json.num)))]

/-- The request issued by updatePost. -/
def updatePostReq (id : Option Int) (p : CreatePostParams) : WPRequest :=
  { method := "POST", path := "/posts/" ++ renderOptInt id, body := updatePostPayload p }

/-- Projection shared by updatePost and publishPost: id, rendered title,
link, status. -/
def projectPostSummary (d : Json) : Except String Json := do
  let tr ← jsGet2 d "title" "rendered"
  pure (mkObj [("id", d.get? "id"), ("title", tr), ("link", d.get? "link"),
               ("status", d.get? "status")])

/-- WordPressClient.updatePost. -/
def updatePost (id : Option Int) (p : CreatePostParams) (env : Env) :
    Except String Json × List WPRequest :=
  let req := updatePostReq id p
  match env req with
  | .error e => (.error ("Failed to update post " ++ renderOptInt id ++ ": " ++ e), [req])
  | .ok r =>
    match projectPostSummary r.data with
    | .ok v => (.ok v, [req])
    | .error e => (.error ("Failed to update post " ++ renderOptInt id ++ ": " ++ e), [req])

/-- The request issued by deletePost for an effective force flag. -/
def deletePostReq (id : Option Int) (f : Bool) : WPRequest :=
  { method := "DELETE", path := "/posts/" ++ renderOptInt id, query := [("force", .bool f)] }

/-- WordPressClient.deletePost: force defaults to false when the argument
is absent; the message depends only on the force flag. -/
def deletePost (id : Option Int) (force : Option Bool) (env : Env) :
    Except String Json × List WPRequest :=
  let f := force.getD false
  let req := deletePostReq id f
  match env req with
  | .ok r =>
      (.ok (mkObj [("message", some (.str (if f then "Post permanently deleted"
                                           else "Post moved to trash"))),
                   ("id", r.data.get? "id")]), [req])
  | .error e => (.error ("Failed to delete post " ++ renderOptInt id ++ ": " ++ e), [req])

/-- WordPressClient.getCategories. -/
def getCategories (p : CatTagParams) (env : Env) : Except String Json × List WPRequest :=
  let q := [("per_page", QVal.int (min (jsOrInt p.per_page 10) 100))]
           ++ optEntry "search" ((truthyStr p.search).map QVal.str)
  let req : WPRequest := { method := "GET", path := "/categories", query := q }
  match env req with
  | .ok r => (.ok (mkObj [("categories", some r.data),
                          ("total", headerOpt r "x-wp-total")]), [req])
  | .error e => (.error ("Failed to fetch categories: " ++ e), [req])

/-- WordPressClient.getTags. -/
def getTags (p : CatTagParams) (env : Env) : Except String Json × List WPRequest :=
  let q := [("per_page", QVal.int (min (jsOrInt p.per_page 10) 100))]
           ++ optEntry "search" ((truthyStr p.search).map QVal.str)
  let req : WPRequest := { method := "GET", path := "/tags", query := q }
  match env req with
  | .ok r => (.ok (mkObj [("tags", some r.data),
                          ("total", headerOpt r "x-wp-total")]), [req])
  | .error e => (.error ("Failed to fetch tags: " ++ e), [req])

/-- The request issued by publishPost: a POST of the literal payload
with only status = "publish". -/
def publishPostReq (id : Option Int) : WPRequest :=
  { method := "POST", path := "/posts/" ++ renderOptInt id,
    body := Json.obj [("status", Json.str "publish")] }

/-- WordPressClient.publishPost. -/
def publishPost (id : Option Int) (env : Env) : Except String Json × List WPRequest :=
  let req := publishPostReq id
  match env req with
  | .error e => (.error ("Failed to publish post " ++ renderOptInt id ++ ": " ++ e), [req])
  | .ok r =>
    match projectPostSummary r.data with
    | .ok v => (.ok v, [req])
    | .error e => (.error ("Failed to publish post " ++ renderOptInt id ++ ": " ++ e), [req])

/-- WordPressClient.getSiteInfo (full variant with page and media
capability flags; the capability map is a local static declaration). -/
def getSiteInfo (env : Env) : Except String Json × List WPRequest :=
  let req : WPRequest := { method := "GET", path := "/" }
  match env req with
  | .ok r =>
      (.ok (mkObj [("name", r.data.get? "name"),
                   ("description", r.data.get? "description"),
                   ("url", r.data.get? "url"),
                   ("timezone", r.data.get? "timezone"),
                   ("authentication", some (.str "Basic Auth (Application Password)")),
                   ("capabilities", some (Json.obj
                     [("canCreatePosts", .bool true), ("canUpdatePosts", .bool true),
                      ("canDeletePosts", .bool true), ("canCreatePages", .bool true),
                      ("canUpdatePages", .bool true), ("canDeletePages", .bool true),
                      ("canManageCategories", .bool true), ("canManageTags", .bool true),
                      ("canUploadMedia", .bool true), ("canDeleteMedia", .bool true)]))]),
       [req])
  | .error e => (.error ("Failed to fetch site info: " ++ e), [req])

/-- Per-hit projection of searchSite (plain field reads). -/
def projectSearchItem (v : Json) : Json :=
  mkObj [("id", v.get? "id"), ("title", v.get? "title"), ("url", v.get? "url"),
         ("type", v.get? "type"), ("subtype", v.get? "subtype")]

/-- WordPressClient.searchSite: validates a truthy search term before any
request; mapping a non-array response body throws. -/
def searchSite (p : SearchParams) (env : Env) : Except String Json × List WPRequest :=
  match truthyStr p.search with
  | none => (.error "Failed to search site: Search term is required", [])
  | some _ =>
    let q := [("search", QVal.str (p.search.getD "")),
              ("per_page", QVal.int (min (jsOrInt p.per_page 10) 100)),
              ("page", QVal.int (jsOrInt p.page 1))]
             ++ optEntry "type" ((truthyStr p.type).map QVal.str)
             ++ optEntry "subtype" ((truthyStr p.subtype).map QVal.str)
    let req : WPRequest := { method := "GET", path := "/search", query := q }
    match env req with
    | .error e => (.error ("Failed to search site: " ++ e), [req])
    | .ok r =>
      match r.data with
      | .arr items =>
          (.ok (mkObj [("results", some (.arr (items.map projectSearchItem))),
                       ("total", headerOpt r "x-wp-total"),
                       ("totalPages", headerOpt r "x-wp-totalpages"),
                       ("currentPage", some (.num (jsOrInt p.page 1))),
                       ("searchTerm", p.search.map Json.str)]), [req])
      | _ => (.error "Failed to search site: response.data.map is not a function", [req])

end WordPressClient

namespace WordPressClient

/-- The fixed extension-to-MIME lookup table of getMimeType. -/
def mimeTable : List (String × String) :=
  [("jpg", "image/jpeg"), ("jpeg", "image/jpeg"), ("png", "image/png"),
   ("gif", "image/gif"), ("webp", "image/webp"), ("svg", "image/svg+xml"),
   ("pdf", "application/pdf"), ("mp4", "video/mp4"), ("mp3", "audio/mpeg"),
   ("wav", "audio/wav")]

/-- WordPressClient.getMimeType: last dot-separated component of the
filename, lowercased, looked up in the fixed table, else octet-stream. -/
def getMimeType (filename : String) : String :=
  let ext := (((filename.splitOn ".").getLast?).getD "").toLower
  (mimeTable.lookup ext).getD "application/octet-stream"

/-- The binary upload request issued by uploadMedia: raw bytes (carried as
the base64 argument), derived MIME content type, attachment disposition. -/
def uploadReq (p : UploadMediaParams) : WPRequest :=
  { method := "POST", path := "/media",
    rawBody := some (p.data.getD ""),
    contentType := some (getMimeType (p.filename.getD "")),
    contentDisposition :=
      some ("attachment; filename=\"" ++ p.filename.getD "" ++ "\"") }

/-- One truthy string field of the metadata-update payload. -/
def strField (k : String) (o : Option String) : List (String × Json) :=
  match truthyStr o with
  | some s => [(k, Json.str s)]
  | none => []

/-- The metadata-update payload of uploadMedia: each of title, alt_text,
caption, description is included only when truthy. -/
def metaUpdates (p : UploadMediaParams) : List (String × Json) :=
  strField "title" p.title ++ strField "alt_text" p.alt_text
  ++ strField "caption" p.caption ++ strField "description" p.description

/-- JS template coercion of a response field into a path segment
(composite values are coerced approximately; remote ids are numeric). -/
def jsPathOf : Option Json → String
  | none => "undefined"
  | some .null => "null"
  | some (.bool b) => if b then "true" else "false"
  | some (.num n) => toString n
  | some (.str s) => s
  | some (.arr xs) => renderArr xs
  | some (.obj _) => "[object Object]"

/-- The second (metadata) request issued by uploadMedia, addressed to the
id field of the binary-upload response. -/
def metaReq (p : UploadMediaParams) (r : HttpResponse) : WPRequest :=
  { method := "POST", path := "/media/" ++ jsPathOf (r.data.get? "id"),
    body := Json.obj (metaUpdates p) }

/-- Projection returned by uploadMedia, read from the binary-upload
response: id, rendered title, source_url, media_type, mime_type, link. -/
def projectUploadMedia (d : Json) : Except String Json := do
  let tr ← jsGet2 d "title" "rendered"
  pure (mkObj [("id", d.get? "id"), ("title", tr),
               ("source_url", d.get? "source_url"),
               ("media_type", d.get? "media_type"),
               ("mime_type", d.get? "mime_type"),
               ("link", d.get? "link")])

/-- WordPressClient.uploadMedia: validates truthy filename and data, issues
the binary upload, then, when any metadata field is truthy, a second POST
to the new resource; the returned projection is taken from the first
response; every failure (either request, or the projection) throws. -/
def uploadMedia (p : UploadMediaParams) (env : Env) : Except String Json × List WPRequest :=
  match truthyStr p.filename with
  | none => (.error "Failed to upload media: Filename is required", [])
  | some _ =>
    match truthyStr p.data with
    | none => (.error "Failed to upload media: File data (base64) is required", [])
    | some _ =>
      let req1 := uploadReq p
      match env req1 with
      | .error e => (.error ("Failed to upload media: " ++ e), [req1])
      | .ok r1 =>
        if (metaUpdates p).isEmpty then
          match projectUploadMedia r1.data with
          | .ok v => (.ok v, [req1])
          | .error e => (.error ("Failed to upload media: " ++ e), [req1])
        else
          let req2 := metaReq p r1
          match env req2 with
          | .error e => (.error ("Failed to upload media: " ++ e), [req1, req2])
          | .ok _ =>
            match projectUploadMedia r1.data with
            | .ok v => (.ok v, [req1, req2])
            | .error e => (.error ("Failed to upload media: " ++ e), [req1, req2])

/-- Projection returned by getMedia (caption/description use optional
chaining and cannot throw; title.rendered can). -/
def projectGetMedia (d : Json) : Except String Json := do
  let tr ← jsGet2 d "title" "rendered"
  pure (mkObj [("id", d.get? "id"), ("title", tr),
               ("source_url", d.get? "source_url"),
               ("media_type", d.get? "media_type"),
               ("mime_type", d.get? "mime_type"),
               ("alt_text", d.get? "alt_text"),
               ("caption", jsGet2Opt d "caption" "rendered"),
               ("description", jsGet2Opt d "description" "rendered"),
               ("media_details", d.get? "media_details"),
               ("link", d.get? "link")])

/-- WordPressClient.getMedia. -/
def getMedia (id : Option Int) (env : Env) : Except String Json × List WPRequest :=
  let req : WPRequest := { method := "GET", path := "/media/" ++ renderOptInt id }
  match env req with
  | .error e => (.error ("Failed to fetch media " ++ renderOptInt id ++ ": " ++ e), [req])
  | .ok r =>
    match projectGetMedia r.data with
    | .ok v => (.ok v, [req])
    | .error e => (.error ("Failed to fetch media " ++ renderOptInt id ++ ": " ++ e), [req])

/-- Query parameters built by listMedia. -/
def listMediaQuery (p : MediaListParams) : List (String × QVal) :=
  [("per_page", .int (min (jsOrInt p.per_page 10) 100)),
   ("page", .int (jsOrInt p.page 1)),
   ("orderby", .str (jsOrStr p.orderby "date")),
   ("order", .str (jsOrStr p.order "desc"))]
  ++ optEntry "search" ((truthyStr p.search).map QVal.str)
  ++ optEntry "media_type" ((truthyStr p.media_type).map QVal.str)
  ++ optEntry "mime_type" ((truthyStr p.mime_type).map QVal.str)

/-- Per-item projection of listMedia (title.rendered can throw). -/
def projectMediaItem (v : Json) : Except String Json := do
  let tr ← jsGet2 v "title" "rendered"
  pure (mkObj [("id", v.get? "id"), ("title", tr),
               ("source_url", v.get? "source_url"),
               ("media_type", v.get? "media_type"),
               ("mime_type", v.get? "mime_type"),
               ("date", v.get? "date")])

/-- WordPressClient.listMedia. -/
def listMedia (p : MediaListParams) (env : Env) : Except String Json × List WPRequest :=
  let req : WPRequest := { method := "GET", path := "/media", query := listMediaQuery p }
  match env req with
  | .error e => (.error ("Failed to list media: " ++ e), [req])
  | .ok r =>
    match r.data with
    | .arr items =>
      match items.mapM projectMediaItem with
      | .ok vs =>
          (.ok (mkObj [("media", some (.arr vs)),
                       ("total", headerOpt r "x-wp-total"),
                       ("totalPages", headerOpt r "x-wp-totalpages"),
                       ("currentPage", some (.num (jsOrInt p.page 1)))]), [req])
      | .error e => (.error ("Failed to list media: " ++ e), [req])
    | _ => (.error "Failed to list media: response.data.map is not a function", [req])

/-- The request issued by deleteMedia for an effective force flag. -/
def deleteMediaReq (id : Option Int) (f : Bool) : WPRequest :=
  { method := "DELETE", path := "/media/" ++ renderOptInt id,
    query := [("force", .bool f)] }

/-- WordPressClient.deleteMedia: the force parameter defaults to true only
when the argument is absent; whatever effective value results is forwarded
in the query; the success message is a constant. -/
def deleteMedia (id : Option Int) (force : Option Bool) (env : Env) :
    Except String Json × List WPRequest :=
  let f := force.getD true
  let req := deleteMediaReq id f
  match env req with
  | .ok r =>
      (.ok (mkObj [("message", some (.str "Media permanently deleted")),
                   ("id", r.data.get? "id")]), [req])
  | .error e => (.error ("Failed to delete media " ++ renderOptInt id ++ ": " ++ e), [req])

/-- The create payload built by createPage (parent is included whenever
present, via an explicit undefined check in the source). -/
def createPagePayload (p : CreatePageParams) : Json :=
  mkObj [("title", p.title.map Json.str),
         ("content", some (.str (jsOrStr p.content ""))),
         ("excerpt", some (.str (jsOrStr p.excerpt ""))),
         ("status", some (.str (jsOrStr p.status "draft"))),
         ("featured_media", (truthyInt p.featured_media).map Json.num),
         ("parent", p.parent.map Json.num)]

/-- Projection returned by createPage. -/
def projectCreatePage (d : Json) : Except String Json := do
  let tr ← jsGet2 d "title" "rendered"
  pure (mkObj [("id", d.get? "id"), ("title", tr), ("link", d.get? "link"),
               ("status", d.get? "status"), ("parent", d.get? "parent")])

/-- WordPressClient.createPage: validates a truthy title before any request. -/
def createPage (p : CreatePageParams) (env : Env) : Except String Json × List WPRequest :=
  match truthyStr p.title with
  | none => (.error "Failed to create page: Page title is required", [])
  | some _ =>
    let req : WPRequest := { method := "POST", path := "/pages", body := createPagePayload p }
    match env req with
    | .error e => (.error ("Failed to create page: " ++ e), [req])
    | .ok r =>
      match projectCreatePage r.data with
      | .ok v => (.ok v, [req])
      | .error e => (.error ("Failed to create page: " ++ e), [req])

/-- The request issued by deletePage for an effective force flag. -/
def deletePageReq (id : Option Int) (f : Bool) : WPRequest :=
  { method := "DELETE", path := "/pages/" ++ renderOptInt id, query := [("force", .bool f)] }

/-- WordPressClient.deletePage: force defaults to false when absent; the
message depends only on the force flag. -/
def deletePage (id : Option Int) (force : Option Bool) (env : Env) :
    Except String Json × List WPRequest :=
  let f := force.getD false
  let req := deletePageReq id f
  match env req with
  | .ok r =>
      (.ok (mkObj [("message", some (.str (if f then "Page permanently deleted"
                                           else "Page moved to trash"))),
                   ("id", r.data.get? "id")]), [req])
  | .error e => (.error ("Failed to delete page " ++ renderOptInt id ++ ": " ++ e), [req])

end WordPressClient

/-- The untyped argument bag of an invoke-operation request: every field
the handler may read, each possibly absent (JS undefined). -/
structure ToolArgs where
  id : Option Int := none
  force : Option Bool := none
  search : Option String := none
  per_page : Option Int := none
  page : Option Int := none
  status : Option String := none
  orderby : Option String := none
  order : Option String := none
  title : Option String := none
  content : Option String := none
  excerpt : Option String := none
  featured_media : Option Int := none
  categories : Option (List Int) := none
  tags : Option (List Int) := none
  type : Option String := none
  subtype : Option String := none
  filename : Option String := none
  data : Option String := none
  alt_text : Option String := none
  caption : Option String := none
  description : Option String := none
  media_type : Option String := none
  mime_type : Option String := none
deriving Repr

/-- The call result envelope returned for every invoke-operation request:
the text of the single content item and the isError flag (absent on
success, modelled as false). -/
structure Envelope where
  text : String
  isError : Bool
deriving Repr, DecidableEq

/-- The argument bag read as PostParams (structural field reads). -/
def ToolArgs.asPostParams (a : ToolArgs) : PostParams :=
  { search := a.search, per_page := a.per_page, page := a.page,
    status := a.status, orderby := a.orderby, order := a.order }

/-- The argument bag read as CreatePostParams. -/
def ToolArgs.asCreatePostParams (a : ToolArgs) : CreatePostParams :=
  { title := a.title, content := a.content, excerpt := a.excerpt,
    status := a.status, featured_media := a.featured_media,
    categories := a.categories, tags := a.tags }

/-- The argument bag read as CatTagParams. -/
def ToolArgs.asCatTagParams (a : ToolArgs) : CatTagParams :=
  { per_page := a.per_page, search := a.search }

/-- The argument bag read as SearchParams. -/
def ToolArgs.asSearchParams (a : ToolArgs) : SearchParams :=
  { search := a.search, per_page := a.per_page, page := a.page,
    type := a.type, subtype := a.subtype }

/-- The argument bag read as UploadMediaParams. -/
def ToolArgs.asUploadMediaParams (a : ToolArgs) : UploadMediaParams :=
  { filename := a.filename, data := a.data, title := a.title,
    alt_text := a.alt_text, caption := a.caption, description := a.description }

/-- The argument bag read as MediaListParams. -/
def ToolArgs.asMediaListParams (a : ToolArgs) : MediaListParams :=
  { per_page := a.per_page, page := a.page, search := a.search,
    media_type := a.media_type, mime_type := a.mime_type,
    orderby := a.orderby, order := a.order }

/-- The switch of the CallToolRequestSchema handler: `some` runs the
matching adapter method, `none` is the default (unknown tool) case. -/
def route (name : String) (a : ToolArgs) (env : Env) :
    Option (Except String Json × List WPRequest) :=
  match name with
  | "get_posts" => some (WordPressClient.getPosts a.asPostParams env)
  | "get_post" => some (WordPressClient.getPost a.id env)
  | "create_post" => some (WordPressClient.createPost a.asCreatePostParams env)
  | "update_post" => some (WordPressClient.updatePost a.id a.asCreatePostParams env)
  | "delete_post" => some (WordPressClient.deletePost a.id a.force env)
  | "get_categories" => some (WordPressClient.getCategories a.asCatTagParams env)
  | "get_tags" => some (WordPressClient.getTags a.asCatTagParams env)
  | "publish_post" => some (WordPressClient.publishPost a.id env)
  | "get_site_info" => some (WordPressClient.getSiteInfo env)
  | "search_site" => some (WordPressClient.searchSite a.asSearchParams env)
  | "upload_media" => some (WordPressClient.uploadMedia a.asUploadMediaParams env)
  | "get_media" => some (WordPressClient.getMedia a.id env)
  | "list_media" => some (WordPressClient.listMedia a.asMediaListParams env)
  | "delete_media" => some (WordPressClient.deleteMedia a.id a.force env)
  | _ => none

/-- The names the switch recognizes (the dispatchable tool catalogue of
the full entry-point variant). -/
def knownToolNames : List String :=
  ["get_posts", "get_post", "create_post", "update_post", "delete_post",
   "get_categories", "get_tags", "publish_post", "get_site_info",
   "search_site", "upload_media", "get_media", "list_media", "delete_media"]

/-- The CallToolRequestSchema handler: the whole switch runs inside one
try/catch; an adapter success is serialized into a success envelope, any
caught failure becomes an isError envelope with an "Error: " prefix, and an
unrecognized name becomes an isError envelope without issuing any request. -/
def dispatch (name : String) (a : ToolArgs) (env : Env) : Envelope × List WPRequest :=
  match route name a env with
  | some (.ok v, t) => ({ text := Json.render v, isError := false }, t)
  | some (.error e, t) => ({ text := "Error: " ++ e, isError := true }, t)
  | none => ({ text := "Unknown tool: " ++ name, isError := true }, [])

/-- The message field of an adapter result (absent on failure). -/
def msgOf : Except String Json → Option Json
  | .ok v => v.get? "message"
  | .error _ => none

/-- A remote environment in which every request fails (network down). -/
def envFail : Env := fun _ => .error "network unreachable"

/-- A concrete remote resource representation rich enough for every
projection used by the theorems below. -/
def resourceData : Json :=
  Json.obj [("id", .num 7),
            ("title", Json.obj [("rendered", .str "photo")]),
            ("content", Json.obj [("rendered", .str "body")]),
            ("link", .str "https://site/p/7"),
            ("status", .str "draft"),
            ("source_url", .str "https://site/photo.jpg"),
            ("media_type", .str "image"),
            ("mime_type", .str "image/jpeg")]

/-- A concrete successful remote response. -/
def respOk : HttpResponse := { data := resourceData }

/-- A remote environment answering every request with `respOk`. -/
def envOk : Env := fun _ => .ok respOk

/-- C1: for every operation name (known or unknown), argument bag and
remote behavior, the dispatch handler returns a well-formed result
envelope: on adapter success a success envelope with the serialized value,
on any caught adapter failure a failure envelope whose payload is
"Error: " followed by the diagnostic message, and on an unknown name a
failure envelope; no failure escapes the handler (dispatch is total by
construction, the Lean image of the single try/catch around the switch). -/
theorem dispatch_always_envelopes (name : String) (a : ToolArgs) (env : Env) :
    (∃ v t, route name a env = some (.ok v, t) ∧
        dispatch name a env = ({ text := Json.render v, isError := false }, t)) ∨
    (∃ e t, route name a env = some (.error e, t) ∧
        dispatch name a env = ({ text := "Error: " ++ e, isError := true }, t)) ∨
    (route name a env = none ∧
        dispatch name a env = ({ text := "Unknown tool: " ++ name, isError := true }, [])) := by
  cases h : route name a env with
  | none => exact Or.inr (Or.inr ⟨rfl, by simp [dispatch, h]⟩)
  | some p =>
    obtain ⟨r, t⟩ := p
    cases r with
    | ok v => exact Or.inl ⟨v, t, rfl, by simp [dispatch, h]⟩
    | error e => exact Or.inr (Or.inl ⟨e, t, rfl, by simp [dispatch, h]⟩)

/-- C2: an operation name outside the dispatch table yields a failure
envelope reading "Unknown tool: <name>" (a routing outcome, not a thrown
error) and issues no outbound request. -/
theorem dispatch_unknown_tool (name : String) (h : name ∉ knownToolNames)
    (a : ToolArgs) (env : Env) :
    dispatch name a env = ({ text := "Unknown tool: " ++ name, isError := true }, []) := by
  have hr : route name a env = none := by
    unfold route
    split <;> simp_all [knownToolNames]
  simp [dispatch, hr]

/-- Witness for C2 at the concrete unknown name "nonexistent_tool". -/
theorem dispatch_unknown_tool_witness :
    "nonexistent_tool" ∉ knownToolNames ∧
    dispatch "nonexistent_tool" {} envFail =
      ({ text := "Unknown tool: " ++ "nonexistent_tool", isError := true }, []) :=
  ⟨by decide, dispatch_unknown_tool "nonexistent_tool" (by decide) {} envFail⟩

/-- C3: evaluation of the code at the failing input. deleteMedia treats
force as true only when the argument is absent; an explicitly supplied
force=false is forwarded to the remote DELETE unchanged, for every remote
behavior — contradicting the documented requirement that force be
effectively true for media deletion. -/
theorem deleteMedia_forwards_explicit_false (env : Env) :
    (WordPressClient.deleteMedia (some 1) (some false) env).2 =
      [WordPressClient.deleteMediaReq (some 1) false] ∧
    (WordPressClient.deleteMediaReq (some 1) false).query = [("force", QVal.bool false)] := by
  refine ⟨?_, rfl⟩
  unfold WordPressClient.deleteMedia
  simp only []
  split <;> rfl

/-- getPosts always issues exactly its one GET, with the query built by
getPostsQuery, whether the remote call succeeds or fails. -/
theorem getPosts_trace (p : PostParams) (env : Env) :
    (WordPressClient.getPosts p env).2 =
      [{ method := "GET", path := "/posts", query := WordPressClient.getPostsQuery p }] := by
  unfold WordPressClient.getPosts
  simp only []
  split <;> rfl

/-- listMedia always issues exactly its one GET, with the query built by
listMediaQuery, whatever the remote returns. -/
theorem listMedia_trace (p : MediaListParams) (env : Env) :
    (WordPressClient.listMedia p env).2 =
      [{ method := "GET", path := "/media", query := WordPressClient.listMediaQuery p }] := by
  unfold WordPressClient.listMedia
  simp only []
  split <;> try rfl
  split <;> try rfl
  split <;> rfl

/-- C4 counterexample: a negative per_page is not clamped into [1,100] and
does not fall back to 10 — getPosts with per_page = -5 sends -5. -/
theorem per_page_negative_counterexample :
    ((WordPressClient.getPosts { per_page := some (-5) } envFail).2.map
        (fun r => r.query.lookup "per_page")) = [some (QVal.int (-5))] ∧
    QVal.int (-5) ≠ QVal.int 10 := ⟨rfl, by decide⟩

/-- C4 amended: for every list call the page size sent is
min(per_page or-else 10, 100): absent or 0 falls back to 10, any value
at least 1 is clamped above to 100 (hence lands in [1,100], and 500 yields
100), but a negative value is forwarded unclamped rather than defaulted to
10. Stated for the two cited list operations, getPosts and listMedia. -/
theorem per_page_effective (p : Option Int) (env : Env) :
    ((WordPressClient.getPosts { per_page := p } env).2.map
        (fun r => r.query.lookup "per_page")) =
      [some (QVal.int (min (jsOrInt p 10) 100))] ∧
    ((WordPressClient.listMedia { per_page := p } env).2.map
        (fun r => r.query.lookup "per_page")) =
      [some (QVal.int (min (jsOrInt p 10) 100))] ∧
    ((p = none ∨ p = some 0) → min (jsOrInt p 10) 100 = 10) ∧
    (∀ n : Int, p = some n → 1 ≤ n →
       min (jsOrInt p 10) 100 = min n 100 ∧ 1 ≤ min n 100 ∧ min n 100 ≤ 100) ∧
    (∀ n : Int, p = some n → n < 0 → min (jsOrInt p 10) 100 = n) := by
  refine ⟨?_, ?_, ?_, ?_, ?_⟩
  · rw [getPosts_trace]
    rfl
  · rw [listMedia_trace]
    rfl
  · rintro (rfl | rfl) <;> simp [jsOrInt]
  · rintro n rfl hn
    have h0 : n ≠ 0 := by omega
    exact ⟨by simp [jsOrInt, h0], le_min hn (by omega), min_le_right n 100⟩
  · rintro n rfl hn
    have h0 : n ≠ 0 := by omega
    have hm : min n 100 = n := min_eq_left (by omega)
    simp [jsOrInt, h0, hm]

/-- Witness for C4 amended at per_page = 500: the effective page size sent
is 100 and lies in [1,100]. -/
theorem per_page_effective_witness :
    (1 : Int) ≤ 500 ∧
    (min (jsOrInt (some 500) 10) 100 = min (500 : Int) 100 ∧
     (1 : Int) ≤ min (500 : Int) 100 ∧ min (500 : Int) 100 ≤ 100) :=
  ⟨by decide, (per_page_effective (some 500) envFail).2.2.2.1 500 rfl (by decide)⟩

/-- C5 counterexample input: filename and data present, alt_text supplied
but equal to the empty string. -/
def uploadEmptyAlt : UploadMediaParams :=
  { filename := some "photo.jpg", data := some "QUJD", alt_text := some "" }

/-- C5 counterexample: a call that supplies alt_text (as the empty string)
issues exactly one outbound request, not two — the metadata check uses JS
truthiness, so an empty supplied field counts as absent. -/
theorem upload_media_empty_alt_single_request :
    uploadEmptyAlt.alt_text = some "" ∧
    (WordPressClient.uploadMedia uploadEmptyAlt envOk).2.length = 1 := ⟨rfl, rfl⟩

/-- C5 amended: when filename and data pass validation and the binary
upload succeeds, a call supplying at least one non-empty (truthy) metadata
field issues exactly two outbound requests — the binary upload then a
metadata POST to the new resource — and a failure of the metadata request
fails the whole operation with a diagnostic message even though the binary
upload succeeded; with no truthy metadata field exactly one request is
issued. -/
theorem upload_media_request_pattern (p : UploadMediaParams) (env : Env) (r1 : HttpResponse)
    (hf : truthyStr p.filename ≠ none) (hd : truthyStr p.data ≠ none)
    (h1 : env (WordPressClient.uploadReq p) = .ok r1) :
    (WordPressClient.metaUpdates p ≠ [] →
       (WordPressClient.uploadMedia p env).2 =
         [WordPressClient.uploadReq p, WordPressClient.metaReq p r1] ∧
       (∀ e, env (WordPressClient.metaReq p r1) = .error e →
          (WordPressClient.uploadMedia p env).1 =
            .error ("Failed to upload media: " ++ e))) ∧
    (WordPressClient.metaUpdates p = [] →
       (WordPressClient.uploadMedia p env).2 = [WordPressClient.uploadReq p]) := by
  obtain ⟨fn, hfn⟩ := Option.ne_none_iff_exists'.mp hf
  obtain ⟨dt, hdt⟩ := Option.ne_none_iff_exists'.mp hd
  cases hm : WordPressClient.metaUpdates p with
  | nil =>
    refine ⟨fun hne => absurd rfl hne, fun _ => ?_⟩
    simp only [WordPressClient.uploadMedia, hfn, hdt, h1, hm, List.isEmpty_nil]
    split
    · split <;> rfl
    · simp_all
  | cons x xs =>
    refine ⟨fun _ => ⟨?_, ?_⟩, fun h0 => by simp at h0⟩
    · simp only [WordPressClient.uploadMedia, hfn, hdt, h1, hm, List.isEmpty_cons]
      split
      · simp_all
      · split <;> try rfl
        split <;> rfl
    · intro e he
      simp only [WordPressClient.uploadMedia, hfn, hdt, h1, hm, List.isEmpty_cons, he]
      simp

/-- C5 witness input: filename, data and a non-empty alt_text. -/
def uploadWithAlt : UploadMediaParams :=
  { filename := some "photo.jpg", data := some "QUJD", alt_text := some "x" }

/-- Witness for C5 amended: the concrete call issues exactly the binary
upload followed by the metadata POST. -/
theorem upload_media_request_pattern_witness :
    (WordPressClient.uploadMedia uploadWithAlt envOk).2 =
      [WordPressClient.uploadReq uploadWithAlt,
       WordPressClient.metaReq uploadWithAlt respOk] :=
  ((upload_media_request_pattern uploadWithAlt envOk respOk (by decide) (by decide) rfl).1
    (by simp [WordPressClient.metaUpdates, WordPressClient.strField, truthyStr, uploadWithAlt])).1

/-- C6: a create_post or create_page call whose title is absent or empty
fails locally with the validation diagnostic and issues zero outbound
requests. -/
theorem create_requires_title (p : CreatePostParams) (q : CreatePageParams) (env : Env)
    (hp : truthyStr p.title = none) (hq : truthyStr q.title = none) :
    WordPressClient.createPost p env =
      (.error "Failed to create post: Post title is required", []) ∧
    WordPressClient.createPage q env =
      (.error "Failed to create page: Page title is required", []) := by
  constructor
  · simp only [WordPressClient.createPost, hp]
  · simp only [WordPressClient.createPage, hq]

/-- Witness for C6 at the empty argument bags. -/
theorem create_requires_title_witness :
    truthyStr (none : Option String) = none ∧
    WordPressClient.createPost {} envOk =
      (.error "Failed to create post: Post title is required", []) ∧
    WordPressClient.createPage {} envOk =
      (.error "Failed to create page: Page title is required", []) :=
  ⟨rfl, create_requires_title {} {} envOk rfl rfl⟩

/-- A truthy string read implies the underlying field was that string. -/
theorem truthyStr_some {o : Option String} {s : String}
    (h : truthyStr o = some s) : o = some s := by
  cases o with
  | none => simp [truthyStr] at h
  | some x =>
    by_cases hx : x = "" <;> simp [truthyStr, hx] at h
    rw [h]

/-- C7: a create_post call with a truthy title and no status supplied
issues exactly one POST whose payload status is "draft" (which is not
"publish"), and content/excerpt default to the empty string when absent. -/
theorem create_post_defaults (p : CreatePostParams) (env : Env)
    (ht : truthyStr p.title ≠ none) (hs : p.status = none) :
    (WordPressClient.createPost p env).2 = [WordPressClient.createPostReq p] ∧
    (WordPressClient.createPostPayload p).get? "status" = some (Json.str "draft") ∧
    Json.str "draft" ≠ Json.str "publish" ∧
    (p.content = none →
       (WordPressClient.createPostPayload p).get? "content" = some (Json.str "")) ∧
    (p.excerpt = none →
       (WordPressClient.createPostPayload p).get? "excerpt" = some (Json.str "")) := by
  obtain ⟨t, hT⟩ := Option.ne_none_iff_exists'.mp ht
  have hTitle : p.title = some t := truthyStr_some hT
  refine ⟨?_, ?_, ?_, ?_, ?_⟩
  · simp only [WordPressClient.createPost, hT]
    split <;> try rfl
    split <;> rfl
  · simp [WordPressClient.createPostPayload, mkObj, Json.get?, hs, hTitle, List.lookup, jsOrStr]
  · intro h
    simp at h
  · intro hc
    simp [WordPressClient.createPostPayload, mkObj, Json.get?, hc, hTitle, List.lookup, jsOrStr]
  · intro he
    simp [WordPressClient.createPostPayload, mkObj, Json.get?, he, hTitle, List.lookup, jsOrStr]

/-- Witness for C7 at create_post with title "Hello" and no status. -/
theorem create_post_defaults_witness :
    truthyStr (some "Hello") ≠ none ∧
    (WordPressClient.createPost { title := some "Hello" } envOk).2 =
      [WordPressClient.createPostReq { title := some "Hello" }] ∧
    (WordPressClient.createPostPayload { title := some "Hello" }).get? "status" =
      some (Json.str "draft") :=
  ⟨by decide,
   (create_post_defaults { title := some "Hello" } envOk (by decide) rfl).1,
   (create_post_defaults { title := some "Hello" } envOk (by decide) rfl).2.1⟩

/-- C8: publish_post(id) is equivalent to update_post(id, status=publish)
with no other field changes: the update payload built from only
status="publish" is exactly the publish request (same POST, same endpoint,
same body), the issued request traces coincide for every remote behavior,
and on a successful response both project the same subset (id, rendered
title, link, status). -/
theorem publish_post_eq_update_status (id : Option Int) (env : Env) :
    WordPressClient.updatePostReq id { status := some "publish" } =
      WordPressClient.publishPostReq id ∧
    (WordPressClient.publishPost id env).2 =
      (WordPressClient.updatePost id { status := some "publish" } env).2 ∧
    (∀ r v, env (WordPressClient.publishPostReq id) = .ok r →
       WordPressClient.projectPostSummary r.data = .ok v →
       (WordPressClient.publishPost id env).1 = .ok v ∧
       (WordPressClient.updatePost id { status := some "publish" } env).1 = .ok v) := by
  have hreq : WordPressClient.updatePostReq id { status := some "publish" } =
      WordPressClient.publishPostReq id := by
    simp [WordPressClient.updatePostReq, WordPressClient.publishPostReq,
          WordPressClient.updatePostPayload, mkObj, truthyStr, truthyInt]
  refine ⟨hreq, ?_, ?_⟩
  · unfold WordPressClient.publishPost WordPressClient.updatePost
    simp only []
    rw [hreq]
    cases env (WordPressClient.publishPostReq id) with
    | error e => rfl
    | ok r =>
      dsimp only
      cases WordPressClient.projectPostSummary r.data <;> rfl
  · intro r v hr hv
    unfold WordPressClient.publishPost WordPressClient.updatePost
    simp only []
    rw [hreq, hr]
    dsimp only
    rw [hv]
    exact ⟨rfl, rfl⟩

/-- The projection of the concrete resource through the shared post
summary (id, rendered title, link, status). -/
def postSummary0 : Json :=
  Json.obj [("id", .num 7), ("title", .str "photo"),
            ("link", .str "https://site/p/7"), ("status", .str "draft")]

/-- Witness for C8 at id 5 against the concrete environment. -/
theorem publish_post_eq_update_status_witness :
    (WordPressClient.publishPost (some 5) envOk).1 = .ok postSummary0 ∧
    (WordPressClient.updatePost (some 5) { status := some "publish" } envOk).1 =
      .ok postSummary0 :=
  (publish_post_eq_update_status (some 5) envOk).2.2 respOk postSummary0 rfl rfl

/-- C9: on a successful upload with metadata, the value returned by
uploadMedia is the projection of the first (binary upload) response r1;
the metadata response r2 is universally quantified and absent from the
conclusion, so the returned title reflects the pre-metadata state. -/
theorem upload_media_result_from_first_response (p : UploadMediaParams) (env : Env)
    (r1 r2 : HttpResponse) (v : Json)
    (hf : truthyStr p.filename ≠ none) (hd : truthyStr p.data ≠ none)
    (hm : WordPressClient.metaUpdates p ≠ [])
    (h1 : env (WordPressClient.uploadReq p) = .ok r1)
    (h2 : env (WordPressClient.metaReq p r1) = .ok r2)
    (hv : WordPressClient.projectUploadMedia r1.data = .ok v) :
    (WordPressClient.uploadMedia p env).1 = .ok v := by
  obtain ⟨fn, hfn⟩ := Option.ne_none_iff_exists'.mp hf
  obtain ⟨dt, hdt⟩ := Option.ne_none_iff_exists'.mp hd
  cases hmm : WordPressClient.metaUpdates p with
  | nil => exact absurd hmm hm
  | cons x xs =>
    simp only [WordPressClient.uploadMedia, hfn, hdt, h1, hmm, List.isEmpty_cons, h2, hv]
    simp

/-- The projection of the concrete resource through the uploadMedia
result shape. -/
def mediaProj0 : Json :=
  Json.obj [("id", .num 7), ("title", .str "photo"),
            ("source_url", .str "https://site/photo.jpg"),
            ("media_type", .str "image"), ("mime_type", .str "image/jpeg"),
            ("link", .str "https://site/p/7")]

/-- Witness for C9 at the concrete upload call with alt_text "x". -/
theorem upload_media_result_from_first_response_witness :
    (WordPressClient.uploadMedia uploadWithAlt envOk).1 = .ok mediaProj0 :=
  upload_media_result_from_first_response uploadWithAlt envOk respOk respOk mediaProj0
    (by decide) (by decide)
    (by simp [WordPressClient.metaUpdates, WordPressClient.strField, truthyStr, uploadWithAlt])
    rfl rfl rfl

/-- C10: on every successful deletion the deleteMedia message is the
constant "Media permanently deleted" whatever force was, while the
deletePost and deletePage messages are chosen solely by the effective
force flag; the response arguments are universally quantified and absent
from every message, so no message depends on the remote response. -/
theorem delete_message_semantics (id : Option Int) (f : Option Bool) (env : Env)
    (rm rp rg : HttpResponse) :
    (env (WordPressClient.deleteMediaReq id (f.getD true)) = .ok rm →
       msgOf (WordPressClient.deleteMedia id f env).1 =
         some (.str "Media permanently deleted")) ∧
    (env (WordPressClient.deletePostReq id (f.getD false)) = .ok rp →
       msgOf (WordPressClient.deletePost id f env).1 =
         some (.str (if f.getD false then "Post permanently deleted"
                     else "Post moved to trash"))) ∧
    (env (WordPressClient.deletePageReq id (f.getD false)) = .ok rg →
       msgOf (WordPressClient.deletePage id f env).1 =
         some (.str (if f.getD false then "Page permanently deleted"
                     else "Page moved to trash"))) := by
  refine ⟨fun hm => ?_, fun hp => ?_, fun hg => ?_⟩
  · simp [WordPressClient.deleteMedia, hm, msgOf, mkObj, Json.get?]
  · simp [WordPressClient.deletePost, hp, msgOf, mkObj, Json.get?]
  · simp [WordPressClient.deletePage, hg, msgOf, mkObj, Json.get?]

/-- Witness for C10 at id 3 with an explicit force=false. -/
theorem delete_message_semantics_witness :
    msgOf (WordPressClient.deleteMedia (some 3) (some false) envOk).1 =
      some (.str "Media permanently deleted") ∧
    msgOf (WordPressClient.deletePost (some 3) (some false) envOk).1 =
      some (.str (if (some false).getD false then "Post permanently deleted"
                  else "Post moved to trash")) ∧
    msgOf (WordPressClient.deletePage (some 3) (some false) envOk).1 =
      some (.str (if (some false).getD false then "Page permanently deleted"
                  else "Page moved to trash")) :=
  ⟨(delete_message_semantics (some 3) (some false) envOk respOk respOk respOk).1 rfl,
   (delete_message_semantics (some 3) (some false) envOk respOk respOk respOk).2.1 rfl,
   (delete_message_semantics (some 3) (some false) envOk respOk respOk respOk).2.2 rfl⟩
